import Mathlib

/-
  Verification development for the AsiaFeedsAiAssistant repository.

  Shallow embedding of:
  - `src/backend/ollama_client.py` (`OllamaService.generate_response`,
    `OllamaService.stream_response`),
  - `src/frontend/api_client.py` (`APIClient.health_check`),
  - `src/run_frontend.py` / `src/streamlit_app.py`
    (`process_pending_if_any` and the chat-input submission branch of `main`).

  External Python facilities (`json.loads`, the HTTP transport) are modelled
  as oracles: each wire event carries both the raw line and the value
  `json.loads` returns for it (`none` = `json.JSONDecodeError`), and transport
  failures (`httpx.RequestError` / `requests.RequestException`) are explicit
  events. Streamlit rendering calls (`st.markdown`, `placeholder.markdown`,
  `st.warning`, `st.rerun`) do not touch the session state modelled here and
  are not represented, except that the submission path reports whether the
  warning branch was taken.
-/

namespace AsiaFeeds

/-- Python values produced by `json.loads`: JSON null, booleans, numbers
(integers suffice for this development), strings, arrays and objects.
An object models a Python `dict`, so its keys are distinct. -/
inductive Json where
  | null : Json
  | bool (b : Bool) : Json
  | num (n : Int) : Json
  | str (s : String) : Json
  | arr (elems : List Json) : Json
  | obj (fields : List (String × Json)) : Json
deriving Repr

/-- Python truthiness (`bool(v)`) of a decoded JSON value: `None`, `False`,
`0`, `""`, `[]` and `{}` are falsy, everything else truthy. -/
def pyTruthy : Json → Bool
  | Json.null => false
  | Json.bool b => b
  | Json.num n => n != 0
  | Json.str s => s != ""
  | Json.arr elems => !elems.isEmpty
  | Json.obj fields => !fields.isEmpty

/-- Truthiness of `d.get(k)`: a missing key gives `None`, which is falsy. -/
def pyTruthyOpt : Option Json → Bool
  | none => false
  | some v => pyTruthy v

/-- Lookup in a decoded JSON object, i.e. Python `d.get(k)` on the dict
`json.loads` produced (keys are distinct, so first match is the match). -/
def dictLookup : List (String × Json) → String → Option Json
  | [], _ => none
  | (k, v) :: rest, key => if k = key then some v else dictLookup rest key

/-- One event on the streaming connection consumed by
`OllamaService.stream_response` (src/backend/ollama_client.py:76-93):
either `response.aiter_lines()` delivers a line — recorded together with the
result of `json.loads` on it, `none` meaning `json.JSONDecodeError` — or the
transport raises `httpx.RequestError` with the given detail text. -/
inductive StreamEvent where
  | line (raw : String) (parsed : Option Json) : StreamEvent
  | transportError (detail : String) : StreamEvent

/-- The synthetic error token `f"[connection error: {e}]"` yielded by
`stream_response` when the transport raises (ollama_client.py:93). -/
def connMarker (detail : String) : String :=
  "[connection error: " ++ detail ++ "]"

/-- `OllamaService.stream_response` (src/backend/ollama_client.py:76-93) as a
function from the wire events to the list of values the generator yields, in
order. Per line: an empty line is skipped (`if not line: continue`); a line
`json.loads` rejects is yielded verbatim; for a decoded dict, a truthy
`response` member is yielded (`yield data["response"]`) and a truthy `done`
member breaks the loop; decoded non-dicts are ignored. A transport error is
converted into one final `[connection error: ...]` token and ends the
generator. Yields are `Json` values because `data["response"]` need not be a
string; the verbatim and error yields are strings. -/
def stream_response : List StreamEvent → List Json
  | [] => []
  | StreamEvent.transportError d :: _ => [Json.str (connMarker d)]
  | StreamEvent.line raw parsed :: rest =>
    if raw = "" then stream_response rest
    else
      match parsed with
      | none => Json.str raw :: stream_response rest
      | some data =>
        match data with
        | Json.obj fields =>
          let deltas : List Json :=
            if pyTruthyOpt (dictLookup fields "response") then
              [(dictLookup fields "response").getD Json.null]
            else []
          if pyTruthyOpt (dictLookup fields "done") then deltas
          else deltas ++ stream_response rest
        | _ => stream_response rest

/-- One step of the `for chunk in api_client.stream_response(...)` iteration in
`process_pending_if_any` (src/run_frontend.py:76, src/streamlit_app.py:65):
the generator either yields a chunk or raises an exception whose string
representation is `msg`. `APIClient.stream_response` itself is not in the
sources; its output is this abstract event sequence. -/
inductive ChunkEvent where
  | chunk (c : Json) : ChunkEvent
  | raiseExc (msg : String) : ChunkEvent

/-- The consumption loop of `process_pending_if_any`
(src/run_frontend.py:76-93): falsy chunks are skipped
(`if not chunk: continue`); `accumulated += chunk` appends a string chunk and
raises `TypeError` on a non-string one; a raised exception ends the loop.
Returns the accumulated text and the message of the exception, if one was
raised. The `placeholder.markdown` live-rendering has no effect on the
session state and is not modelled. -/
def consumeLoop : String → List ChunkEvent → String × Option String
  | acc, [] => (acc, none)
  | acc, ChunkEvent.raiseExc m :: _ => (acc, some m)
  | acc, ChunkEvent.chunk c :: rest =>
    if pyTruthy c then
      match c with
      | Json.str s => consumeLoop (acc ++ s) rest
      | _ => (acc, some "can only concatenate str to str")
    else consumeLoop acc rest

/-- One entry of `st.session_state.messages` as built by `main`
(src/run_frontend.py:162-169): the dict with keys `prompt`, `response`,
`model`, `thinking`, `timestamp`, `pending`. -/
structure Message where
  prompt : String
  response : String
  model : String
  thinking : Bool
  timestamp : String
  pending : Bool
deriving Repr, DecidableEq, Inhabited

/-- The chat-related Streamlit session state (src/run_frontend.py:36-41):
`messages`, `awaiting_index` (a Python int or `None`) and the in-flight
guard `is_processing`. -/
structure SessionState where
  messages : List Message
  awaiting_index : Option Int
  is_processing : Bool
deriving Repr, DecidableEq

/-- The text stored by the `except`/`finally` blocks of
`process_pending_if_any` (src/run_frontend.py:94-99): the accumulated text,
or — when the loop raised and nothing was accumulated —
`accumulated or f"❌ Error: {e}"` produces the error string. -/
def finalText (events : List ChunkEvent) : String :=
  match consumeLoop "" events with
  | (acc, none) => acc
  | (acc, some m) => if acc = "" then "❌ Error: " ++ m else acc

/-- `process_pending_if_any` (src/run_frontend.py:58-104,
src/streamlit_app.py:49-91) over the modelled session state. Returns
immediately when `awaiting_index` is `None` or `is_processing` is set;
clears an out-of-range `awaiting_index`; otherwise runs the consumption
loop under `try/except/finally`, records the final text and `pending=False`
into the awaited message, clears `awaiting_index` and resets
`is_processing`. The trailing `st.rerun()` only re-invokes the host render
loop and does not change this state. -/
def process_pending_if_any (s : SessionState) (events : List ChunkEvent) :
    SessionState :=
  match s.awaiting_index with
  | none => s
  | some idx =>
    if s.is_processing then s
    else if idx < 0 ∨ (s.messages.length : Int) ≤ idx then
      { s with awaiting_index := none }
    else
      let n := idx.toNat
      let item := s.messages.getD n default
      { messages := s.messages.set n
          { item with response := finalText events, pending := false },
        awaiting_index := none,
        is_processing := false }

/-- Python `str.strip()` restricted to ASCII whitespace
(space, tab, newline, carriage return, vertical tab, form feed). -/
def pyStripChar (c : Char) : Bool :=
  c == ' ' || c == '\t' || c == '\n' || c == '\r' || c == '\x0b' || c == '\x0c'

/-- Python `text.strip()`: drop leading and trailing whitespace. -/
def pyStrip (s : String) : String :=
  String.mk (((s.data.dropWhile pyStripChar).reverse.dropWhile pyStripChar).reverse)

/-- The chat-input submission branch of `main` (src/run_frontend.py:156-171,
src/streamlit_app.py:145-160): on submit, `clean = (text or "").strip()`;
when `clean` is empty a warning is rendered (reported as the second
component) and the state is untouched; otherwise a pending message is
appended and `awaiting_index` is set to its index. -/
def handle_submission (s : SessionState) (text : Option String)
    (submitted : Bool) (model : String) (thinking : Bool) (now : String) :
    SessionState × Bool :=
  if !submitted then (s, false)
  else
    let clean := pyStrip (text.getD "")
    if clean = "" then (s, true)
    else
      ({ messages := s.messages ++
           [{ prompt := clean, response := "", model := model,
              thinking := thinking, timestamp := now, pending := true }],
         awaiting_index := some (s.messages.length : Int),
         is_processing := s.is_processing }, false)

/-- The request body `OllamaRequest(model=..., prompt=..., stream=...)`
POSTed to `/api/generate` (src/backend/ollama_client.py:32-36). -/
structure OllamaRequest where
  model : String
  prompt : String
  stream : Bool
deriving Repr, DecidableEq

/-- The body `OllamaService.generate_response` builds
(src/backend/ollama_client.py:32-36): it sets `stream=True`. -/
def generate_request_data (prompt model : String) : OllamaRequest :=
  { model := model, prompt := prompt, stream := true }

/-- Whether the first character list starts with the second. -/
def startsWithChars : List Char → List Char → Bool
  | _, [] => true
  | [], _ :: _ => false
  | h :: hs, n :: ns => h == n && startsWithChars hs ns

/-- Whether the second character list occurs contiguously in the first. -/
def containsChars : List Char → List Char → Bool
  | [], ns => ns.isEmpty
  | h :: hs, ns => startsWithChars (h :: hs) ns || containsChars hs ns

/-- Python `"response" in v` membership test on a decoded JSON value:
key membership for dicts, element equality for lists, substring test for
strings (and `"" in s` is true); on any other value Python raises
`TypeError` (`argument of type ... is not iterable`), modelled as `none`. -/
def pyContains (v : Json) (k : String) : Option Bool :=
  match v with
  | Json.obj fields => some (fields.any (fun p => p.1 == k))
  | Json.arr elems =>
    some (elems.any (fun e => match e with
      | Json.str s => s == k
      | _ => false))
  | Json.str s => some (k == "" || containsChars s.data k.data)
  | _ => none

/-- Python `v["response"]` on a decoded JSON value: dict lookup; indexing a
non-dict by a string raises `TypeError`, modelled as `none`. -/
def pyGetItem (v : Json) (k : String) : Option Json :=
  match v with
  | Json.obj fields => dictLookup fields k
  | _ => none

/-- What the backend interaction of `generate_response` produced:
`client.post` raised `httpx.RequestError` with the given detail, or a reply
arrived with a status code and the result of `response.json()`
(`Except.error m` = `json.JSONDecodeError` with message `m`). -/
inductive GenReply where
  | connectError (detail : String) : GenReply
  | reply (status : Nat) (body : Except String Json) : GenReply

/-- Outcome of `OllamaService.generate_response`: a returned value, or the
exception class that escapes (`httpx.RequestError`, `httpx.HTTPStatusError`
from `raise_for_status`, `ValueError`, or an uncaught `TypeError`). -/
inductive GenResult where
  | ok (v : Json) : GenResult
  | requestError (msg : String) : GenResult
  | statusError (status : Nat) : GenResult
  | valueError (msg : String) : GenResult
  | typeError : GenResult
deriving Repr

/-- Whether a `GenResult` is a raised `ValueError`. -/
def GenResult.isValueError : GenResult → Bool
  | GenResult.valueError _ => true
  | _ => false

/-- `OllamaService.generate_response` (src/backend/ollama_client.py:38-57).
A transport failure is re-raised as `httpx.RequestError` with a
`Failed to connect to Ollama:` prefix. `raise_for_status()` raises
`httpx.HTTPStatusError` on a non-2xx status, which neither `except` clause
catches. `response.json()` failing raises `json.JSONDecodeError`, a
`ValueError` subclass, caught and re-raised with an
`Invalid response from Ollama:` prefix; so is the explicit
`ValueError("Invalid response format from Ollama")` raised when
`"response" not in response_data`. A `TypeError` from the `in` test or the
indexing on a non-dict body escapes uncaught. -/
def generate_response (r : GenReply) : GenResult :=
  match r with
  | GenReply.connectError d =>
    GenResult.requestError ("Failed to connect to Ollama: " ++ d)
  | GenReply.reply status body =>
    if status < 200 ∨ 300 ≤ status then GenResult.statusError status
    else
      match body with
      | Except.error m =>
        GenResult.valueError ("Invalid response from Ollama: " ++ m)
      | Except.ok data =>
        match pyContains data "response" with
        | none => GenResult.typeError
        | some false =>
          GenResult.valueError
            "Invalid response from Ollama: Invalid response format from Ollama"
        | some true =>
          match pyGetItem data "response" with
          | some v => GenResult.ok v
          | none => GenResult.typeError

/-- What `requests.get(f"{base_url}/health", timeout=5)` did: returned a
response with a status code, or raised `requests.RequestException`
(connection failure, timeout, ...). -/
inductive HealthReply where
  | reply (status : Nat) : HealthReply
  | requestException (detail : String) : HealthReply
deriving Repr, DecidableEq

/-- `APIClient.health_check` (src/frontend/api_client.py:55-66): returns
`status == 200`, and `False` when the request raised; the `except` clause
swallows every `requests.RequestException`, so the function is total. -/
def health_check : HealthReply → Bool
  | HealthReply.reply status => status == 200
  | HealthReply.requestException _ => false

/-- Concatenation of a list of strings. -/
def strJoin : List String → String
  | [] => ""
  | s :: rest => s ++ strJoin rest

/-- Feeding the consumption loop a run of string chunks accumulates their
concatenation (falsy empty strings are skipped without changing the text). -/
theorem consumeLoop_str_chunks (acc : String) (ss : List String)
    (k : List ChunkEvent) :
    consumeLoop acc (ss.map (fun s => ChunkEvent.chunk (Json.str s)) ++ k)
      = consumeLoop (acc ++ strJoin ss) k := by
  induction ss generalizing acc with
  | nil => simp [strJoin]
  | cons s rest ih =>
    by_cases hs : s = ""
    · subst hs
      simp [consumeLoop, pyTruthy, strJoin, ih]
    · simp only [List.map_cons, List.cons_append, consumeLoop, pyTruthy,
        bne_iff_ne, ne_eq, hs, not_false_eq_true, if_true, strJoin]
      rw [List.append_eq, ih, String.append_assoc]

/-- Whether `stream_response` stops consuming at this event: a transport
error, or a nonempty line decoded to a dict with a truthy `done` member. -/
def stops : StreamEvent → Bool
  | StreamEvent.transportError _ => true
  | StreamEvent.line raw parsed =>
    if raw = "" then false
    else
      match parsed with
      | some (Json.obj fields) => pyTruthyOpt (dictLookup fields "done")
      | _ => false

/-- Events at which the decoder does not stop are consumed left to right, so
the decoder distributes over appending further wire events. -/
theorem stream_response_append (pre tail : List StreamEvent)
    (h : pre.all (fun e => !stops e) = true) :
    stream_response (pre ++ tail)
      = stream_response pre ++ stream_response tail := by
  induction pre with
  | nil => simp [stream_response]
  | cons e pre ih =>
    simp only [List.all_cons, Bool.and_eq_true, Bool.not_eq_true'] at h
    obtain ⟨he, hpre⟩ := h
    cases e with
    | transportError d => simp [stops] at he
    | line raw parsed =>
      by_cases hraw : raw = ""
      · subst hraw
        simpa [stream_response] using ih hpre
      · cases parsed with
        | none => simp [stream_response, hraw, ih hpre]
        | some data =>
          cases data with
          | obj fields =>
            have hdone : pyTruthyOpt (dictLookup fields "done") = false := by
              simpa [stops, hraw] using he
            simp [stream_response, hraw, hdone, ih hpre]
          | null => simp [stream_response, hraw, ih hpre]
          | bool b => simp [stream_response, hraw, ih hpre]
          | num n => simp [stream_response, hraw, ih hpre]
          | str s => simp [stream_response, hraw, ih hpre]
          | arr elems => simp [stream_response, hraw, ih hpre]

/-- Claim C3: invoking `process_pending_if_any` while a turn is already in
flight (the `is_processing` guard is set) is a no-op — the call returns
immediately and the whole session state, in particular the chat-history
length, `awaiting_index` and the in-flight flag, is unchanged. -/
theorem reentry_while_processing_is_noop (s : SessionState)
    (events : List ChunkEvent) (h : s.is_processing = true) :
    process_pending_if_any s events = s := by
  cases hidx : s.awaiting_index with
  | none => simp [process_pending_if_any, hidx]
  | some idx => simp [process_pending_if_any, hidx, h]

/-- Claim C3 witness: a concrete in-flight session with a pending index is
returned unchanged. -/
theorem reentry_while_processing_is_noop_witness :
    (SessionState.mk [Message.mk "q" "" "m" false "t" true] (some 0)
        true).is_processing = true ∧
    process_pending_if_any
        (SessionState.mk [Message.mk "q" "" "m" false "t" true] (some 0) true)
        [ChunkEvent.raiseExc "boom"]
      = SessionState.mk [Message.mk "q" "" "m" false "t" true] (some 0) true :=
  ⟨rfl, reentry_while_processing_is_noop _ _ rfl⟩

/-- Claim C4 (documents the code bug): for every prompt and model, the JSON
body `generate_response` POSTs to `/api/generate` carries `stream = true`,
not the `stream = false` the non-streaming single-shot contract specifies —
even though the function then reads the reply with a single `response.json()`
parse, which presupposes a non-streaming reply. -/
theorem generate_request_sends_stream_true :
    ∀ (prompt model : String),
      (generate_request_data prompt model).stream = true :=
  fun _ _ => rfl

/-- Claim C8: `health_check` is a total boolean function of the probe
outcome — it never raises, and it returns `true` exactly when the `/health`
request came back with status 200; any other status and any raised request
exception give `false`. -/
theorem health_check_total_and_exact :
    ∀ r : HealthReply, health_check r = true ↔ r = HealthReply.reply 200 := by
  intro r
  cases r with
  | reply status => simp [health_check]
  | requestException d => simp [health_check]

/-- Claim C10: when the submitted chat input strips to the empty string, the
submission branch appends no message and leaves the session state — in
particular `awaiting_index` and `is_processing` — unchanged; the warning
branch is taken instead of creating a turn. -/
theorem blank_submission_changes_nothing (s : SessionState)
    (text : Option String) (model : String) (thinking : Bool) (now : String)
    (h : pyStrip (text.getD "") = "") :
    handle_submission s text true model thinking now = (s, true) := by
  simp [handle_submission, h]

/-- Claim C10 witness: submitting whitespace-only input leaves a concrete
session untouched and renders the warning. -/
theorem blank_submission_changes_nothing_witness :
    pyStrip ((some "  \t ").getD "") = "" ∧
    handle_submission (SessionState.mk [] none false) (some "  \t ") true
        "llama3.2:3b" false "2026-10-12 00:00"
      = (SessionState.mk [] none false, true) :=
  ⟨rfl, blank_submission_changes_nothing _ _ _ _ _ rfl⟩

/-- A key bound in the object passes Python's `in` membership test. -/
theorem dictLookup_some_mem (fields : List (String × Json)) (k : String)
    (v : Json) (h : dictLookup fields k = some v) :
    fields.any (fun p => p.1 == k) = true := by
  induction fields with
  | nil => simp [dictLookup] at h
  | cons p rest ih =>
    obtain ⟨pk, pv⟩ := p
    by_cases hk : pk = k
    · simp [hk]
    · rw [dictLookup, if_neg hk] at h
      simp [hk, ih h]

/-- Claim C5: for every 2xx backend reply whose body parses as a JSON object
binding `response`, `generate_response` returns exactly that value,
unmodified. -/
theorem generate_returns_response_field (status : Nat)
    (hlo : 200 ≤ status) (hhi : status < 300)
    (fields : List (String × Json)) (v : Json)
    (hget : dictLookup fields "response" = some v) :
    generate_response (GenReply.reply status (Except.ok (Json.obj fields)))
      = GenResult.ok v := by
  have hmem := dictLookup_some_mem fields "response" v hget
  have hrange : ¬ (status < 200 ∨ 300 ≤ status) := by omega
  simp [generate_response, hrange, pyContains, hmem, pyGetItem, hget]

/-- Claim C5 witness: a concrete 200 reply `{"response": "hi"}` makes
`generate_response` return exactly `"hi"`. -/
theorem generate_returns_response_field_witness :
    (200 ≤ 200 ∧ 200 < 300 ∧
      dictLookup [("response", Json.str "hi")] "response"
        = some (Json.str "hi")) ∧
    generate_response
        (GenReply.reply 200 (Except.ok (Json.obj [("response", Json.str "hi")])))
      = GenResult.ok (Json.str "hi") :=
  ⟨⟨by omega, by omega, rfl⟩,
   generate_returns_response_field 200 (by omega) (by omega) _ _ rfl⟩

/-- Counterexample to claim C6 as stated: the JSON number `5` is parseable
structured data lacking a `response` field, yet on a 200 reply whose body
parses to it, `generate_response` raises a `TypeError`
(`"response" not in 5` is not a valid Python expression for an int), not a
`ValueError`-class error. -/
theorem scalar_reply_raises_type_error :
    generate_response (GenReply.reply 200 (Except.ok (Json.num 5)))
      = GenResult.typeError ∧
    (generate_response
        (GenReply.reply 200 (Except.ok (Json.num 5)))).isValueError = false :=
  ⟨rfl, rfl⟩

/-- Claim C6 amended: for every 2xx backend reply whose body parses as a
JSON object, array or string on which Python's `"response" in ...` test is
false, `generate_response` raises the `ValueError`-class failure and returns
no string; bodies parsing to JSON scalars (numbers, booleans, null) instead
raise an uncaught `TypeError`. -/
theorem missing_response_raises_value_error (status : Nat)
    (hlo : 200 ≤ status) (hhi : status < 300) (data : Json)
    (hmem : pyContains data "response" = some false) :
    generate_response (GenReply.reply status (Except.ok data))
      = GenResult.valueError
          "Invalid response from Ollama: Invalid response format from Ollama" ∧
    (generate_response (GenReply.reply status (Except.ok data))).isValueError
      = true := by
  have hrange : ¬ (status < 200 ∨ 300 ≤ status) := by omega
  constructor
  · simp [generate_response, hrange, hmem]
  · simp [generate_response, hrange, hmem, GenResult.isValueError]

/-- Claim C6 witness: a concrete 200 reply whose body is the object
`{"x": null}` (no `response` member) raises the wrapped `ValueError`. -/
theorem missing_response_raises_value_error_witness :
    (200 ≤ 200 ∧ 200 < 300 ∧
      pyContains (Json.obj [("x", Json.null)]) "response" = some false) ∧
    generate_response (GenReply.reply 200 (Except.ok (Json.obj [("x", Json.null)])))
      = GenResult.valueError
          "Invalid response from Ollama: Invalid response format from Ollama" ∧
    (generate_response
        (GenReply.reply 200 (Except.ok (Json.obj [("x", Json.null)])))).isValueError
      = true :=
  ⟨⟨by omega, by omega, rfl⟩,
   missing_response_raises_value_error 200 (by omega) (by omega) _ rfl⟩

/-- Counterexample to claim C7 as stated: the line `" "` is whitespace-only
(empty after trimming), but the decoder does not skip it — the code's
`if not line` test only skips the exactly-empty line, `json.loads(" ")`
fails, and the raw line is yielded verbatim as a delta. -/
theorem whitespace_line_yields_delta :
    stream_response [StreamEvent.line " " none] = [Json.str " "] ∧
    stream_response [StreamEvent.line " " none] ≠ [] := by
  refine ⟨rfl, ?_⟩
  intro h
  have h2 : ([Json.str " "] : List Json) = [] := h
  exact List.cons_ne_nil _ _ h2

/-- Claim C7 amended: the decoder skips a line only when it is exactly the
empty string (yielding no delta), and every nonempty line that `json.loads`
rejects — whitespace-only lines included — is yielded verbatim as a
plain-text delta, with consumption continuing on the subsequent events. -/
theorem line_handling_skip_and_verbatim (raw : String) (hraw : raw ≠ "")
    (parsed : Option Json) (rest : List StreamEvent) :
    stream_response (StreamEvent.line "" parsed :: rest)
      = stream_response rest ∧
    stream_response (StreamEvent.line raw none :: rest)
      = Json.str raw :: stream_response rest := by
  constructor
  · simp [stream_response]
  · simp [stream_response, hraw]

/-- Claim C7 witness: the non-JSON line `"plain text"` is yielded verbatim
before the following line's delta, and an empty line is skipped. -/
theorem line_handling_skip_and_verbatim_witness :
    ("plain text" : String) ≠ "" ∧
    stream_response [StreamEvent.line "" none, StreamEvent.line "x" none]
      = stream_response [StreamEvent.line "x" none] ∧
    stream_response
        [StreamEvent.line "plain text" none, StreamEvent.line "x" none]
      = Json.str "plain text" :: stream_response [StreamEvent.line "x" none] :=
  ⟨by decide,
   line_handling_skip_and_verbatim "plain text" (by decide) none
     [StreamEvent.line "x" none]⟩

/-- Claim C9: once a turn actually starts (valid `awaiting_index`, guard not
set), `process_pending_if_any` returns a plain state on every behaviour of
the chunk stream — normal exhaustion, a raised exception, a `TypeError`
from a non-string chunk — so nothing propagates to the caller; the
`finally` block records the final text and `pending = False` into the
awaited turn, clears `awaiting_index` and resets `is_processing`. When the
loop raised before any text accumulated, the recorded text is the
human-readable `❌ Error: ...` string; when it ended normally it is the
accumulated text. -/
theorem turn_processing_always_finalizes (s : SessionState) (idx : Int)
    (events : List ChunkEvent)
    (h1 : s.awaiting_index = some idx) (h2 : s.is_processing = false)
    (h3 : 0 ≤ idx) (h4 : idx < (s.messages.length : Int)) :
    process_pending_if_any s events =
      { messages := s.messages.set idx.toNat
          { s.messages.getD idx.toNat default with
              response := finalText events, pending := false },
        awaiting_index := none, is_processing := false } ∧
    (∀ m, consumeLoop "" events = ("", some m) →
      finalText events = "❌ Error: " ++ m) ∧
    (∀ acc, consumeLoop "" events = (acc, none) → finalText events = acc) := by
  refine ⟨?_, ?_, ?_⟩
  · have hrange : ¬ (idx < 0 ∨ (s.messages.length : Int) ≤ idx) := by omega
    simp [process_pending_if_any, h1, h2, hrange]
  · intro m hm
    simp [finalText, hm]
  · intro acc hacc
    simp [finalText, hacc]

/-- Claim C9 witness: a stream that raises immediately still leaves a
concrete one-turn session finalized, with the error string recorded. -/
theorem turn_processing_always_finalizes_witness :
    process_pending_if_any
        (SessionState.mk [Message.mk "q" "" "m" false "t" true] (some 0) false)
        [ChunkEvent.raiseExc "boom"]
      = SessionState.mk [Message.mk "q" "❌ Error: boom" "m" false "t" false]
          none false :=
  ((turn_processing_always_finalizes
      (SessionState.mk [Message.mk "q" "" "m" false "t" true] (some 0) false)
      0 [ChunkEvent.raiseExc "boom"] rfl rfl (by omega)
      (by simp)).1).trans rfl

/-- A run of nonempty lines, each decoding to a JSON object with a truthy
string `response` member and without a truthy `done` member, yields exactly
those strings before whatever the remaining events yield. Each list entry is
`(raw line, decoded object fields, response string)`. -/
theorem stream_response_response_lines
    (items : List (String × List (String × Json) × String))
    (hitems : ∀ it ∈ items, it.1 ≠ "" ∧
      dictLookup it.2.1 "response" = some (Json.str it.2.2) ∧ it.2.2 ≠ "" ∧
      pyTruthyOpt (dictLookup it.2.1 "done") = false)
    (tail : List StreamEvent) :
    stream_response
        (items.map (fun it => StreamEvent.line it.1 (some (Json.obj it.2.1)))
          ++ tail)
      = items.map (fun it => Json.str it.2.2) ++ stream_response tail := by
  induction items with
  | nil => simp
  | cons it items ih =>
    obtain ⟨h1, h2, h3, h4⟩ := hitems it (List.mem_cons_self it items)
    have ihh := ih (fun x hx => hitems x (List.mem_cons_of_mem it hx))
    simp only [List.map_cons, List.cons_append, stream_response]
    rw [if_neg h1, h2, h4]
    simp [pyTruthyOpt, pyTruthy, h3, ihh]

/-- Claim C1: for a wire whose lines decode to JSON objects each carrying a
truthy string `response` (and no truthy `done`), followed by a line decoding
to an object with truthy `done` (and no truthy `response`), the decoder
yields exactly the `response` strings in wire order and then stops,
consuming none of the events after the `done` object even if the connection
stays open; a consumer accumulating the yielded chunks ends with their
concatenation. -/
theorem stream_decoder_yields_in_order_then_stops
    (items : List (String × List (String × Json) × String))
    (hitems : ∀ it ∈ items, it.1 ≠ "" ∧
      dictLookup it.2.1 "response" = some (Json.str it.2.2) ∧ it.2.2 ≠ "" ∧
      pyTruthyOpt (dictLookup it.2.1 "done") = false)
    (doneRaw : String) (hdoneRaw : doneRaw ≠ "")
    (dfields : List (String × Json))
    (hdone : pyTruthyOpt (dictLookup dfields "done") = true)
    (hdresp : pyTruthyOpt (dictLookup dfields "response") = false)
    (rest : List StreamEvent) :
    stream_response
        (items.map (fun it => StreamEvent.line it.1 (some (Json.obj it.2.1)))
          ++ StreamEvent.line doneRaw (some (Json.obj dfields)) :: rest)
      = items.map (fun it => Json.str it.2.2) ∧
    consumeLoop ""
        ((items.map (fun it => Json.str it.2.2)).map ChunkEvent.chunk)
      = (strJoin (items.map (fun it => it.2.2)), none) := by
  constructor
  · rw [stream_response_response_lines items hitems]
    simp [stream_response, hdoneRaw, hdone, hdresp]
  · have h := consumeLoop_str_chunks "" (items.map (fun it => it.2.2)) []
    simp only [List.append_nil, List.map_map, Function.comp_def] at h
    simp only [List.map_map, Function.comp_def]
    rw [h, consumeLoop, String.empty_append]

/-- Claim C1 witness: the spec's line sequence
`{"response":"Hel"}`, `{"response":"lo"}`, `{"done":true}` — followed by a
further line that must not be consumed — yields `"Hel"` then `"lo"` and
stops, and the accumulated text is `"Hello"`. -/
theorem stream_decoder_yields_in_order_then_stops_witness :
    stream_response
        [StreamEvent.line "\x7b\"response\":\"Hel\"\x7d"
           (some (Json.obj [("response", Json.str "Hel")])),
         StreamEvent.line "\x7b\"response\":\"lo\"\x7d"
           (some (Json.obj [("response", Json.str "lo")])),
         StreamEvent.line "\x7b\"done\":true\x7d"
           (some (Json.obj [("done", Json.bool true)])),
         StreamEvent.line "\x7b\"response\":\"IGNORED\"\x7d"
           (some (Json.obj [("response", Json.str "IGNORED")]))]
      = [Json.str "Hel", Json.str "lo"] ∧
    consumeLoop ""
        [ChunkEvent.chunk (Json.str "Hel"), ChunkEvent.chunk (Json.str "lo")]
      = ("Hello", none) := by
  have h := stream_decoder_yields_in_order_then_stops
    [("\x7b\"response\":\"Hel\"\x7d", [("response", Json.str "Hel")], "Hel"),
     ("\x7b\"response\":\"lo\"\x7d", [("response", Json.str "lo")], "lo")]
    (by
      intro it hit
      simp only [List.mem_cons] at hit
      rcases hit with h | h | h
      · subst h; exact ⟨by decide, rfl, by decide, rfl⟩
      · subst h; exact ⟨by decide, rfl, by decide, rfl⟩
      · simp at h)
    "\x7b\"done\":true\x7d" (by decide)
    [("done", Json.bool true)] rfl rfl
    [StreamEvent.line "\x7b\"response\":\"IGNORED\"\x7d"
       (some (Json.obj [("response", Json.str "IGNORED")]))]
  exact ⟨h.1.trans rfl, h.2.trans rfl⟩

/-- The synthetic connection-error token is never the empty string. -/
theorem connMarker_ne_empty (d : String) : connMarker d ≠ "" := by
  intro h
  have hlen := congrArg String.length h
  rw [connMarker, String.length_append, String.length_append] at hlen
  have h1 : ("[connection error: " : String).length = 19 := rfl
  have h2 : ("]" : String).length = 1 := rfl
  have h3 : ("" : String).length = 0 := rfl
  omega

/-- Claim C2: when the transport raises mid-stream after the decoder has
yielded some string deltas, the decoder emits exactly one further synthetic
delta `[connection error: <detail>]` and its sequence ends; a consumer turn
fed those chunks finishes with the accumulated text equal to the earlier
deltas followed by the marker, with the turn finalized (pending cleared,
`awaiting_index` cleared, in-flight flag reset) rather than hanging. -/
theorem midstream_error_appends_marker_and_finalizes
    (pre : List StreamEvent) (hpre : pre.all (fun e => !stops e) = true)
    (prevDeltas : List String)
    (hstr : stream_response pre = prevDeltas.map Json.str)
    (d : String) (msg : Message) :
    stream_response (pre ++ [StreamEvent.transportError d])
      = prevDeltas.map Json.str ++ [Json.str (connMarker d)] ∧
    process_pending_if_any (SessionState.mk [msg] (some 0) false)
        ((stream_response (pre ++ [StreamEvent.transportError d])).map
          ChunkEvent.chunk)
      = SessionState.mk
          [{ msg with response := strJoin prevDeltas ++ connMarker d,
                      pending := false }]
          none false := by
  have hmain : stream_response (pre ++ [StreamEvent.transportError d])
      = prevDeltas.map Json.str ++ [Json.str (connMarker d)] := by
    rw [stream_response_append pre [StreamEvent.transportError d] hpre, hstr]
    rfl
  refine ⟨hmain, ?_⟩
  rw [hmain]
  have hloop : consumeLoop ""
      ((prevDeltas.map Json.str ++ [Json.str (connMarker d)]).map
        ChunkEvent.chunk)
      = (strJoin prevDeltas ++ connMarker d, none) := by
    simp only [List.map_append, List.map_map, Function.comp_def,
      List.map_cons, List.map_nil]
    rw [consumeLoop_str_chunks "" prevDeltas
      [ChunkEvent.chunk (Json.str (connMarker d))]]
    simp [consumeLoop, pyTruthy, connMarker_ne_empty d]
  have hfin : finalText
      ((prevDeltas.map Json.str ++ [Json.str (connMarker d)]).map
        ChunkEvent.chunk)
      = strJoin prevDeltas ++ connMarker d := by
    simp only [finalText, hloop]
  set chunks := (prevDeltas.map Json.str ++ [Json.str (connMarker d)]).map
    ChunkEvent.chunk with hchunks
  simp [process_pending_if_any, hfin]

/-- Claim C2 witness: after yielding `"partial"`, a transport failure with
detail `"boom"` makes the decoder emit the marker and end, and a concrete
one-turn session finishes with `"partial[connection error: boom]"` recorded
and all flags cleared. -/
theorem midstream_error_appends_marker_and_finalizes_witness :
    stream_response
        ([StreamEvent.line "\x7b\"response\":\"partial\"\x7d"
            (some (Json.obj [("response", Json.str "partial")]))]
          ++ [StreamEvent.transportError "boom"])
      = [Json.str "partial", Json.str "[connection error: boom]"] ∧
    process_pending_if_any
        (SessionState.mk [Message.mk "q" "" "m" false "t" true] (some 0) false)
        ((stream_response
            ([StreamEvent.line "\x7b\"response\":\"partial\"\x7d"
                (some (Json.obj [("response", Json.str "partial")]))]
              ++ [StreamEvent.transportError "boom"])).map ChunkEvent.chunk)
      = SessionState.mk
          [Message.mk "q" "partial[connection error: boom]" "m" false "t" false]
          none false := by
  have h := midstream_error_appends_marker_and_finalizes
    [StreamEvent.line "\x7b\"response\":\"partial\"\x7d"
       (some (Json.obj [("response", Json.str "partial")]))]
    rfl ["partial"] rfl "boom" (Message.mk "q" "" "m" false "t" true)
  exact ⟨h.1.trans rfl, h.2.trans rfl⟩

end AsiaFeeds
